import Mathlib

/-!
Verification of the Goodcontact audio-processing pipeline.

We shallowly embed the code driving the `/api/files/process` batch endpoint
(`server/routes.ts`), the in-memory/SQL asset store (`server/storage.ts`),
the blob move (`server/services/azure-storage.ts`), the direct transcription
client (`directTranscribe` / `DeepgramService.processAudioFile`), the
paragraph/sentence stored procedures (`check_sql_server_tables.js`) and the
Python transcription normalizer (`transcribe_audio.py`), and prove or refute
the specification's claims about them.
-/

namespace Goodcontact

/-! ## JavaScript string helpers

`jsSubstring s n` models `s.substring(0, n)`: the first `n` UTF-16 units
(characters, for our purposes) of `s`.  `jsOr` models `a || b` on strings,
where the empty string is falsy. -/

def jsSubstring (s : String) (n : Nat) : String :=
  String.mk (s.data.take n)

def jsOr (a b : String) : String :=
  if a = "" then b else a

theorem jsSubstring_length (s : String) (n : Nat) :
    (jsSubstring s n).length = min n s.length := by
  show (s.data.take n).length = min n s.data.length
  exact List.length_take n s.data

theorem jsSubstring_ne_of_lt {s : String} {n : Nat} (h : n < s.length) :
    jsSubstring s n ≠ s := by
  intro heq
  have := jsSubstring_length s n
  rw [heq] at this
  omega

/-! ## `MemStorage.updateAsset` (server/storage.ts)

The in-memory asset record and the update patch.  `Option` fields model
absent (`undefined`) properties; the code guards every SQL column write by
JavaScript truthiness (`if (updates.x)`), under which the empty string and
`undefined` both count as absent. -/

structure RdtAsset where
  fileid : String
  filename : String
  sourcePath : String
  destinationPath : String
  fileSize : Nat
  status : String
  transcription : Option String
  transcriptionJson : Option String
  languageDetected : Option String
  errorMessage : Option String
  processingDuration : Option Nat
  processedDate : Option Nat
  deriving Repr, DecidableEq

structure AssetPatch where
  status : Option String := none
  transcription : Option String := none
  transcriptionJson : Option String := none
  fileSize : Option Nat := none
  languageDetected : Option String := none
  errorMessage : Option String := none
  processingDuration : Option Nat := none
  processedDate : Option Nat := none
  deriving Repr, DecidableEq

/-- The in-memory merge `{ ...asset, ...updates }` performed first by
`updateAsset`.  A field present on the patch overwrites the asset's field
(JavaScript spread copies even falsy own-properties, so we merge on
presence, not truthiness). -/
def updateAssetMem (a : RdtAsset) (u : AssetPatch) : RdtAsset :=
  { a with
    status := u.status.getD a.status
    transcription := (u.transcription.map some).getD a.transcription
    transcriptionJson := (u.transcriptionJson.map some).getD a.transcriptionJson
    fileSize := u.fileSize.getD a.fileSize
    languageDetected := (u.languageDetected.map some).getD a.languageDetected
    errorMessage := (u.errorMessage.map some).getD a.errorMessage
    processingDuration := (u.processingDuration.map some).getD a.processingDuration
    processedDate := (u.processedDate.map some).getD a.processedDate }

/-- The `sqlUpdates` record assembled by `updateAsset` for the SQL
`UPDATE rdt_assets` statement: each text column is written only when the
patch field is truthy, and is truncated — `transcription` and the
serialized `transcription_json` to 4000 characters, `language_detected`
to 100, `error_message` to 1000. -/
structure SqlUpdates where
  status : Option String
  transcription : Option String
  transcription_json : Option String
  file_size : Option Nat
  language_detected : Option String
  error_message : Option String
  processing_duration : Option Nat
  processed_date : Option Nat
  deriving Repr, DecidableEq

def guardTruthy (o : Option String) (f : String → String) : Option String :=
  match o with
  | none => none
  | some s => if s = "" then none else some (f s)

def updateAssetSql (u : AssetPatch) : SqlUpdates :=
  { status := guardTruthy u.status id
    transcription := guardTruthy u.transcription (fun s => jsSubstring s 4000)
    transcription_json := guardTruthy u.transcriptionJson (fun s => jsSubstring s 4000)
    file_size := match u.fileSize with
      | none => none
      | some n => if n = 0 then none else some n
    language_detected := guardTruthy u.languageDetected (fun s => jsSubstring s 100)
    error_message := guardTruthy u.errorMessage (fun s => jsSubstring s 1000)
    processing_duration := match u.processingDuration with
      | none => none
      | some n => if n = 0 then none else some n
    processed_date := u.processedDate }

/-- `updateAsset` returns the merged in-memory asset and issues the SQL
update; the SQL write failing does not change the returned value
(the catch returns the in-memory asset). -/
def updateAsset (a : RdtAsset) (u : AssetPatch) : RdtAsset × SqlUpdates :=
  (updateAssetMem a u, updateAssetSql u)

/-- A 4001-character transcript, long enough to be truncated by the SQL write. -/
def longStr : String := String.mk (List.replicate 4001 'a')

def c10Asset : RdtAsset :=
  { fileid := "f1", filename := "a.wav", sourcePath := "shahulin/a.wav"
    destinationPath := "shahulout/a.wav", fileSize := 0, status := "processing"
    transcription := none, transcriptionJson := none, languageDetected := none
    errorMessage := none, processingDuration := none, processedDate := none }

def c10Patch : AssetPatch :=
  { status := some "completed", transcription := some longStr
    transcriptionJson := some "serializedjson", languageDetected := some "English"
    errorMessage := some "boom" }

/-- C10: `updateAsset` silently truncates the values written to the SQL
`rdt_assets` row — `transcription` and the serialized `transcription_json`
to 4000 characters, `language_detected` to 100, `error_message` to 1000 —
while the in-memory asset it returns keeps the full values, so for a
transcript longer than 4000 characters the persisted value differs from
the returned one. -/
theorem updateAsset_truncates_sql_and_keeps_memory
    (a : RdtAsset) (u : AssetPatch) (t j l e : String)
    (ht : u.transcription = some t) (ht0 : t ≠ "")
    (hj : u.transcriptionJson = some j) (hj0 : j ≠ "")
    (hl : u.languageDetected = some l) (hl0 : l ≠ "")
    (he : u.errorMessage = some e) (he0 : e ≠ "")
    (hlong : 4000 < t.length) :
    ((updateAsset a u).2.transcription = some (jsSubstring t 4000)
      ∧ (updateAsset a u).2.transcription_json = some (jsSubstring j 4000)
      ∧ (updateAsset a u).2.language_detected = some (jsSubstring l 100)
      ∧ (updateAsset a u).2.error_message = some (jsSubstring e 1000))
    ∧ ((updateAsset a u).1.transcription = some t
      ∧ (updateAsset a u).1.transcriptionJson = some j
      ∧ (updateAsset a u).1.languageDetected = some l
      ∧ (updateAsset a u).1.errorMessage = some e)
    ∧ (updateAsset a u).2.transcription ≠ (updateAsset a u).1.transcription := by
  have gt : ∀ (s : String) (f : String → String), s ≠ "" →
      guardTruthy (some s) f = some (f s) := by
    intro s f h
    simp [guardTruthy, h]
  have st : (updateAsset a u).2.transcription = some (jsSubstring t 4000) := by
    show guardTruthy u.transcription (fun s => jsSubstring s 4000) = _
    rw [ht, gt t _ ht0]
  have sj : (updateAsset a u).2.transcription_json = some (jsSubstring j 4000) := by
    show guardTruthy u.transcriptionJson (fun s => jsSubstring s 4000) = _
    rw [hj, gt j _ hj0]
  have sl : (updateAsset a u).2.language_detected = some (jsSubstring l 100) := by
    show guardTruthy u.languageDetected (fun s => jsSubstring s 100) = _
    rw [hl, gt l _ hl0]
  have se : (updateAsset a u).2.error_message = some (jsSubstring e 1000) := by
    show guardTruthy u.errorMessage (fun s => jsSubstring s 1000) = _
    rw [he, gt e _ he0]
  have mt : (updateAsset a u).1.transcription = some t := by
    show (u.transcription.map some).getD a.transcription = _
    rw [ht]; rfl
  have mj : (updateAsset a u).1.transcriptionJson = some j := by
    show (u.transcriptionJson.map some).getD a.transcriptionJson = _
    rw [hj]; rfl
  have ml : (updateAsset a u).1.languageDetected = some l := by
    show (u.languageDetected.map some).getD a.languageDetected = _
    rw [hl]; rfl
  have me : (updateAsset a u).1.errorMessage = some e := by
    show (u.errorMessage.map some).getD a.errorMessage = _
    rw [he]; rfl
  refine ⟨⟨st, sj, sl, se⟩, ⟨mt, mj, ml, me⟩, ?_⟩
  rw [st, mt]
  intro hcontra
  exact jsSubstring_ne_of_lt hlong (Option.some.inj hcontra)

theorem updateAsset_truncation_witness :
    (c10Patch.transcription = some longStr ∧ longStr ≠ ""
      ∧ c10Patch.transcriptionJson = some "serializedjson"
      ∧ c10Patch.languageDetected = some "English"
      ∧ c10Patch.errorMessage = some "boom"
      ∧ 4000 < longStr.length)
    ∧ (updateAsset c10Asset c10Patch).2.transcription
        ≠ (updateAsset c10Asset c10Patch).1.transcription := by
  have hlen : longStr.length = 4001 := by
    show (List.replicate 4001 'a').length = 4001
    rw [List.length_replicate]
  have hne : longStr ≠ "" := by
    intro h
    have : longStr.length = 0 := by rw [h]; rfl
    omega
  refine ⟨⟨rfl, hne, rfl, rfl, rfl, by omega⟩, ?_⟩
  exact (updateAsset_truncates_sql_and_keeps_memory c10Asset c10Patch
    longStr "serializedjson" "English" "boom"
    rfl hne rfl (by decide) rfl (by decide) rfl (by decide) (by omega)).2.2

/-! ## Raw transcription response shape

Modelled after the fields `server/routes.ts` reads via optional chaining:
`transcription?.result?.utterances?.[0]?.transcript`,
`transcription?.result?.channels?.[0]?.alternatives?.[0]?.transcript`,
`transcription?.result?.metadata?.detected_language`.  `Option` marks a
field that may be absent (`undefined`). -/

structure DgUtterance where
  transcript : Option String
  deriving Repr, DecidableEq

structure DgAlternative where
  transcript : Option String
  deriving Repr, DecidableEq

structure DgChannel where
  alternatives : Option (List DgAlternative)
  deriving Repr, DecidableEq

structure DgMetadata where
  detected_language : Option String
  deriving Repr, DecidableEq

structure DgResult where
  utterances : Option (List DgUtterance)
  channels : Option (List DgChannel)
  metadata : Option DgMetadata
  deriving Repr, DecidableEq

structure DgResponse where
  result : Option DgResult
  deriving Repr, DecidableEq

/-- Drop a falsy (empty) string, as a JavaScript `||` chain would. -/
def truthyStr (o : Option String) : Option String :=
  o.bind (fun s => if s = "" then none else some s)

/-- `transcription?.result?.utterances?.[0]?.transcript` -/
def firstUtteranceTranscript (t : Option DgResponse) : Option String :=
  (((t.bind DgResponse.result).bind DgResult.utterances).bind List.head?).bind
    DgUtterance.transcript

/-- `transcription?.result?.channels?.[0]?.alternatives?.[0]?.transcript` -/
def firstChannelTranscript (t : Option DgResponse) : Option String :=
  (((((t.bind DgResponse.result).bind DgResult.channels).bind List.head?).bind
    DgChannel.alternatives).bind List.head?).bind DgAlternative.transcript

/-- The transcript the `/api/files/process` handler persists:
`utterances[0].transcript || channels[0].alternatives[0].transcript || ''`. -/
def extractTranscript (t : Option DgResponse) : String :=
  ((truthyStr (firstUtteranceTranscript t)).or
    (truthyStr (firstChannelTranscript t))).getD ""

/-- `transcription?.result?.metadata?.detected_language || 'English'` -/
def extractLanguage (t : Option DgResponse) : String :=
  jsOr ((((t.bind DgResponse.result).bind DgResult.metadata).bind
    DgMetadata.detected_language).getD "") "English"

/-! ## Direct transcription client (`directTranscribe`, part_013, and
`DeepgramService.processAudioFile`, server/services/deepgram.ts)

The outcome of the `fetch` to the Python backend: a 2xx response with a
parsed body, a non-2xx response with its HTTP status and parsed `error`
field, or a thrown exception (network failure, timeout, bad JSON).
The HTTP status is visible at the wire but, as the embedding shows, never
inspected by the client beyond `response.ok`. -/

inductive FetchOutcome
  | ok (transcription : Option DgResponse) (transcript : Option String)
  | httpError (status : Nat) (errorField : Option String)
  | exn (msg : String)
  deriving Repr, DecidableEq

/-- The object `directTranscribe` returns: a success flag and a message
string; there is no classification field. -/
structure DirectResult where
  success : Bool
  error : Option String
  transcription : Option DgResponse
  transcript : Option String
  fileid : String
  deriving Repr, DecidableEq

def directTranscribe (o : FetchOutcome) (fileid : String) : DirectResult :=
  match o with
  | .ok transcription transcript =>
      { success := true, error := none, transcription := transcription
        transcript := transcript, fileid := fileid }
  | .httpError _ errorField =>
      { success := false
        error := some (jsOr (errorField.getD "") "Unknown error from Python backend")
        transcription := none, transcript := none, fileid := fileid }
  | .exn msg =>
      { success := false, error := some msg
        transcription := none, transcript := none, fileid := fileid }

/-- `${x}` on a possibly-undefined value. -/
def jsTemplate (o : Option String) : String := o.getD "undefined"

/-- `DeepgramService.processAudioFile`: wraps `directTranscribe`, throws on
`success=false` or an empty/blank transcript, and its catch converts any
throw into `{success:false, error: message}`. `genId` stands for the
generated `file_...` identifier used when no asset fileid is supplied. -/
def processAudioFile (o : FetchOutcome) (assetFileid : Option String)
    (genId : String) : DirectResult :=
  let fileid := jsOr ((assetFileid).getD "") genId
  let d := directTranscribe o fileid
  if d.success then
    match d.transcript with
    | some t =>
      if t.trim = "" then
        { success := false
          error := some "Empty or invalid transcript returned from DirectTranscribe"
          transcription := none, transcript := none
          fileid := (assetFileid).getD "" }
      else
        { success := true, error := none, transcription := d.transcription
          transcript := d.transcript, fileid := fileid }
    | none =>
      { success := false
        error := some "Empty or invalid transcript returned from DirectTranscribe"
        transcription := none, transcript := none
        fileid := (assetFileid).getD "" }
  else
    { success := false
      error := some ("Direct transcription failed: " ++ jsTemplate d.error)
      transcription := none, transcript := none
      fileid := (assetFileid).getD "" }

/-- The spec's error taxonomy for the transcription client. -/
inductive ErrClass
  | badRequest
  | unauthorized
  | timeout
  | serviceError
  deriving Repr, DecidableEq

/-- C5 counterexample: no function of the client's returned failure value
can recover the spec's classification, because an HTTP 400 (BadRequest)
failure and an HTTP 503 (ServiceError) failure with the same error text
produce identical results — the client surfaces only a success flag and a
message string. -/
theorem directTranscribe_returns_no_classification :
    ¬ ∃ classify : DirectResult → ErrClass,
      classify (directTranscribe (.httpError 400 (some "err")) "f1") = .badRequest
      ∧ classify (directTranscribe (.httpError 503 (some "err")) "f1") = .serviceError := by
  rintro ⟨classify, h400, h503⟩
  have heq : directTranscribe (.httpError 400 (some "err")) "f1"
      = directTranscribe (.httpError 503 (some "err")) "f1" := rfl
  rw [heq, h503] at h400
  exact ErrClass.noConfusion h400

/-- C5 amended: a failed transcription attempt is surfaced only as
`{success:false, error:<message string>}` — with no transcription payload
and no typed classification — and the result is independent of the HTTP
status code, so the orchestrator cannot decide retry eligibility from a
classification. -/
theorem processAudioFile_failure_is_message_only
    (status : Nat) (e : Option String) (fid genId : String) :
    (processAudioFile (.httpError status e) (some fid) genId).success = false
    ∧ (processAudioFile (.httpError status e) (some fid) genId).error
        = some ("Direct transcription failed: "
            ++ jsOr (e.getD "") "Unknown error from Python backend")
    ∧ (processAudioFile (.httpError status e) (some fid) genId).transcription = none
    ∧ (processAudioFile (.httpError status e) (some fid) genId).transcript = none
    ∧ ∀ status' : Nat,
        processAudioFile (.httpError status e) (some fid) genId
          = processAudioFile (.httpError status' e) (some fid) genId := by
  refine ⟨rfl, ?_, rfl, rfl, fun _ => rfl⟩
  show some ("Direct transcription failed: "
      ++ jsTemplate (directTranscribe (.httpError status e) (jsOr fid genId)).error) = _
  simp [directTranscribe, jsTemplate]

theorem processAudioFile_failure_witness :
    (processAudioFile (.httpError 500 (some "boom")) (some "f1") "g").success = false
    ∧ (processAudioFile (.httpError 500 (some "boom")) (some "f1") "g").error
        = some "Direct transcription failed: boom" := by
  have h := processAudioFile_failure_is_message_only 500 (some "boom") "f1" "g"
  exact ⟨h.1, h.2.1⟩

/-! ## Blob Gateway (`moveFileToProcessed`, server/services/azure-storage.ts)

Containers are modelled as association lists from blob name to content
(an opaque `Nat` token standing for the byte buffer).  The function issues
a fixed sequence of SDK calls: `exists()`, `download()`, `upload(...)`,
`delete()`; `readProps` is the SDK's properties/size read, available to
the code but never called by it.  A `MoveFault` says which SDK call (if
any) throws during the run. -/

def srcContainer : String := "shahulin"
def dstContainer : String := "shahulout"

structure BlobState where
  source : List (String × Nat)
  dest : List (String × Nat)
  deriving Repr, DecidableEq

def lookupBlob (l : List (String × Nat)) (n : String) : Option Nat :=
  (l.find? (fun p => p.1 = n)).map (·.2)

def setBlob (l : List (String × Nat)) (n : String) (c : Nat) : List (String × Nat) :=
  (n, c) :: l.filter (fun p => p.1 ≠ n)

def eraseBlob (l : List (String × Nat)) (n : String) : List (String × Nat) :=
  l.filter (fun p => p.1 ≠ n)

inductive MoveFault
  | ok
  | downloadErr
  | uploadErr
  | deleteErr
  deriving Repr, DecidableEq

inductive BlobAct
  | existsCheck (container blob : String)
  | download (container blob : String)
  | upload (container blob : String) (content : Nat)
  | delete (container blob : String)
  | readProps (container blob : String)
  deriving Repr, DecidableEq

/-- Is this act a read of the destination container (a verification that
the copy arrived, e.g. re-reading the blob or its size)? -/
def BlobAct.isDestRead : BlobAct → Bool
  | .download c _ => c = dstContainer
  | .readProps c _ => c = dstContainer
  | _ => false

/-- `moveFileToProcessed`: returns the thrown error message (if any), the
resulting blob state, and the trace of storage calls issued. -/
def moveFileToProcessedM (st : BlobState) (fault : MoveFault) (fileName : String) :
    Option String × BlobState × List BlobAct :=
  match lookupBlob st.source fileName with
  | none =>
      (some ("Source blob " ++ fileName ++ " does not exist"), st,
        [.existsCheck srcContainer fileName])
  | some content =>
      match fault with
      | .downloadErr =>
          (some "download failed", st,
            [.existsCheck srcContainer fileName, .download srcContainer fileName])
      | .uploadErr =>
          (some "upload failed", st,
            [.existsCheck srcContainer fileName, .download srcContainer fileName,
             .upload dstContainer fileName content])
      | .deleteErr =>
          (some "delete failed",
            { st with dest := setBlob st.dest fileName content },
            [.existsCheck srcContainer fileName, .download srcContainer fileName,
             .upload dstContainer fileName content, .delete srcContainer fileName])
      | .ok =>
          (none,
            { source := eraseBlob st.source fileName
              dest := setBlob st.dest fileName content },
            [.existsCheck srcContainer fileName, .download srcContainer fileName,
             .upload dstContainer fileName content, .delete srcContainer fileName])

/-- A concrete store with one source blob, for the C6 counterexample. -/
def c6State : BlobState :=
  { source := [("call_recording_001.wav", 42)], dest := [] }

/-- C6 counterexample: in a successful move of an existing blob the call
trace is exists-check, download, upload, delete — the source blob is
deleted although no act ever reads the destination back, so no
byte-for-byte (or size) verification of the copy happens before the
delete. -/
theorem moveFileToProcessed_no_verification_before_delete :
    (moveFileToProcessedM c6State .ok "call_recording_001.wav").2.2
      = [.existsCheck srcContainer "call_recording_001.wav",
         .download srcContainer "call_recording_001.wav",
         .upload dstContainer "call_recording_001.wav" 42,
         .delete srcContainer "call_recording_001.wav"]
    ∧ ((moveFileToProcessedM c6State .ok "call_recording_001.wav").2.2.any
         (fun a => a.isDestRead)) = false
    ∧ ((moveFileToProcessedM c6State .ok "call_recording_001.wav").2.2.any
         (fun a => a = .delete srcContainer "call_recording_001.wav")) = true := by
  refine ⟨rfl, by decide, by decide⟩

/-- C6 amended: `moveFileToProcessed` copies the blob by downloading it and
re-uploading the downloaded bytes to the destination, then deletes the
source; the delete is issued only after the upload call returned (no
separate verification read of the destination happens first), and if the
source blob does not exist the operation throws after the exists-check,
leaving the store untouched with nothing written or deleted. -/
theorem moveFileToProcessed_copy_then_delete
    (st : BlobState) (f : String) (c : Nat)
    (h : lookupBlob st.source f = some c) :
    moveFileToProcessedM st .ok f
      = (none,
         { source := eraseBlob st.source f, dest := setBlob st.dest f c },
         [.existsCheck srcContainer f, .download srcContainer f,
          .upload dstContainer f c, .delete srcContainer f])
    ∧ (∀ fault, ((moveFileToProcessedM st fault f).2.2.any
         (fun a => a.isDestRead)) = false)
    ∧ (∀ fault, fault ≠ .ok → (moveFileToProcessedM st fault f).1.isSome
         ∧ lookupBlob (moveFileToProcessedM st fault f).2.1.source f = some c)
    ∧ (∀ (st' : BlobState) (f' : String), lookupBlob st'.source f' = none →
        ∀ fault, moveFileToProcessedM st' fault f'
          = (some ("Source blob " ++ f' ++ " does not exist"), st',
             [.existsCheck srcContainer f'])) := by
  refine ⟨?_, ?_, ?_, ?_⟩
  · simp [moveFileToProcessedM, h]
  · intro fault
    cases fault <;> simp [moveFileToProcessedM, h, BlobAct.isDestRead,
      srcContainer, dstContainer]
  · intro fault hne
    cases fault with
    | ok => exact absurd rfl hne
    | downloadErr => exact ⟨by simp [moveFileToProcessedM, h], by
        simp [moveFileToProcessedM, h]⟩
    | uploadErr => exact ⟨by simp [moveFileToProcessedM, h], by
        simp [moveFileToProcessedM, h]⟩
    | deleteErr => exact ⟨by simp [moveFileToProcessedM, h], by
        simp [moveFileToProcessedM, h]⟩
  · intro st' f' h' fault
    cases fault <;> simp [moveFileToProcessedM, h']

theorem moveFileToProcessed_copy_then_delete_witness :
    lookupBlob c6State.source "call_recording_001.wav" = some 42
    ∧ moveFileToProcessedM c6State .ok "call_recording_001.wav"
      = (none,
         { source := eraseBlob c6State.source "call_recording_001.wav"
           dest := setBlob c6State.dest "call_recording_001.wav" 42 },
         [.existsCheck srcContainer "call_recording_001.wav",
          .download srcContainer "call_recording_001.wav",
          .upload dstContainer "call_recording_001.wav" 42,
          .delete srcContainer "call_recording_001.wav"])
    ∧ moveFileToProcessedM { source := [], dest := [] } .ok "missing.wav"
      = (some "Source blob missing.wav does not exist",
         { source := [], dest := [] }, [.existsCheck srcContainer "missing.wav"]) := by
  have h := moveFileToProcessed_copy_then_delete c6State "call_recording_001.wav" 42
    (by decide)
  exact ⟨by decide, h.1, h.2.2.2 { source := [], dest := [] } "missing.wav" rfl .ok⟩

/-! ## The batch endpoint `/api/files/process` (server/routes.ts)

Per requested file the handler: creates the asset record
(`status:'processing'`, `fileSize:0`), calls
`deepgramService.processAudioFile` (which never throws — it returns a
`success` flag the handler does not check), calls `moveFileToProcessed`,
and then calls `storage.updateAsset(..., {status:'completed', ...})`.
The per-file `try/catch` converts a throw into an `{filename, status:
'error', error}` entry of the batch report.  `FileEnv` packages the
per-file nondeterminism: the generated `nanoid`, the fetch outcome, the
blob-storage fault, the clock and the measured duration. -/

/-- Stands for `JSON.parse(JSON.stringify(...))`: an opaque, total
serialization of the raw response. -/
def dgSerialize (t : Option DgResponse) : String := reprStr t

structure FileEnv where
  fileid : String
  fetch : FetchOutcome
  fault : MoveFault
  genId : String
  now : Nat
  dur : Nat
  deriving Repr

structure SysState where
  blobs : BlobState
  assets : List (String × RdtAsset)
  deriving Repr, DecidableEq

def lookupAsset (m : List (String × RdtAsset)) (k : String) : Option RdtAsset :=
  (m.find? (fun p => p.1 = k)).map (·.2)

def setAsset (m : List (String × RdtAsset)) (k : String) (a : RdtAsset) :
    List (String × RdtAsset) :=
  (k, a) :: m.filter (fun p => p.1 ≠ k)

/-- The asset record created at ingestion by the batch handler. -/
def initialAsset (fileid filename : String) : RdtAsset :=
  { fileid := fileid, filename := filename
    sourcePath := "shahulin/" ++ filename
    destinationPath := "shahulout/" ++ filename
    fileSize := 0, status := "processing"
    transcription := none, transcriptionJson := none, languageDetected := none
    errorMessage := none, processingDuration := none, processedDate := none }

/-- The update written after the move: `status:'completed'`, transcript
extracted from the raw response, serialized response JSON, detected
language (`|| 'English'`). -/
def completedPatch (env : FileEnv) (result : DirectResult) : AssetPatch :=
  { status := some "completed"
    processedDate := some env.now
    processingDuration := some env.dur
    transcription := some (extractTranscript result.transcription)
    transcriptionJson := some (dgSerialize result.transcription)
    languageDetected := some (extractLanguage result.transcription) }

/-- One entry of the batch report (`results.push(...)`). -/
structure BatchEntry where
  fileid : Option String
  filename : String
  status : String
  error : Option String
  deriving Repr, DecidableEq

/-- The observable calls the handler makes, in order. -/
inductive Ev
  | createAsset (fileid status : String) (fileSize : Nat)
  | transcribe (filename fileid : String)
  | moveBlob (filename : String)
  | updateAsset (fileid status : String)
  deriving Repr, DecidableEq

/-- One iteration of the per-file loop of the `/api/files/process`
handler, with its `try/catch`. -/
def processOneFile (st : SysState) (env : FileEnv) (filename : String) :
    SysState × BatchEntry × List Ev :=
  let asset0 := initialAsset env.fileid filename
  let st1 : SysState := { st with assets := setAsset st.assets env.fileid asset0 }
  let result := processAudioFile env.fetch (some env.fileid) env.genId
  let moved := moveFileToProcessedM st1.blobs env.fault filename
  let evs := [Ev.createAsset env.fileid "processing" 0,
              Ev.transcribe filename env.fileid,
              Ev.moveBlob filename]
  match moved.1 with
  | some msg =>
      ({ st1 with blobs := moved.2.1 },
       { fileid := none, filename := filename, status := "error", error := some msg },
       evs)
  | none =>
      let st2 : SysState := { st1 with blobs := moved.2.1 }
      let st3 : SysState :=
        match lookupAsset st2.assets env.fileid with
        | none => st2
        | some a =>
            { st2 with
              assets := setAsset st2.assets env.fileid
                (updateAssetMem a (completedPatch env result)) }
      (st3,
       { fileid := some env.fileid, filename := filename, status := "success"
         error := none },
       evs ++ [Ev.updateAsset env.fileid "completed"])

/-- The `for (const filename of files)` loop: one environment per file. -/
def processFiles (st : SysState) (envs : List FileEnv) (files : List String) :
    SysState × List BatchEntry × List Ev :=
  match envs, files with
  | e :: es, f :: fs =>
      let r1 := processOneFile st e f
      let r2 := processFiles r1.1 es fs
      (r2.1, r1.2.1 :: r2.2.1, r1.2.2 ++ r2.2.2)
  | _, _ => (st, [], [])

theorem lookupAsset_setAsset_self (m : List (String × RdtAsset)) (k : String)
    (a : RdtAsset) : lookupAsset (setAsset m k a) k = some a := by
  simp [lookupAsset, setAsset]

/-- A raw response with one channel/alternative transcript. -/
def goodResp : DgResponse :=
  { result := some
      { utterances := none
        channels := some [{ alternatives := some [{ transcript := some "hello world" }] }]
        metadata := some { detected_language := some "en" } } }

/-- A per-file environment where every external call succeeds. -/
def okEnv : FileEnv :=
  { fileid := "fid1", fetch := .ok (some goodResp) (some "hello world")
    fault := .ok, genId := "gen", now := 100, dur := 3 }

def okState : SysState := { blobs := c6State, assets := [] }

/-- C1: the spec demands that `moveFileToProcessed` for a fileId be issued
only after the persistence of that fileId's transcription result has
returned success.  Evaluating the handler on a run where every call
succeeds shows the code does the opposite: the blob move is issued at
trace position 2, strictly before the `status:'completed'` asset update
at position 3 — persistence success cannot gate a move that has already
happened. -/
theorem batch_moves_blob_before_persisting :
    (processOneFile okState okEnv "call_recording_001.wav").2.2
      = [Ev.createAsset "fid1" "processing" 0,
         Ev.transcribe "call_recording_001.wav" "fid1",
         Ev.moveBlob "call_recording_001.wav",
         Ev.updateAsset "fid1" "completed"]
    ∧ (processOneFile okState okEnv "call_recording_001.wav").2.2.indexOf
        (Ev.moveBlob "call_recording_001.wav")
      < (processOneFile okState okEnv "call_recording_001.wav").2.2.indexOf
        (Ev.updateAsset "fid1" "completed") := by
  exact ⟨rfl, by decide⟩

def emptyState : SysState := { blobs := { source := [], dest := [] }, assets := [] }

def missingEnv : FileEnv :=
  { fileid := "fid2", fetch := .ok (some goodResp) (some "hello world")
    fault := .ok, genId := "gen", now := 7, dur := 1 }

/-- C2 counterexample: a file whose blob move fails (source blob absent)
yields a batch entry with `status:'error'`, but the Asset record is left
with `status:'processing'` and no `errorMessage` — not `status:'error'`
with `errorMessage` set, as the claim requires. -/
theorem batch_failure_not_recorded_on_asset :
    (processOneFile emptyState missingEnv "b.mp3").2.1.status = "error"
    ∧ lookupAsset (processOneFile emptyState missingEnv "b.mp3").1.assets "fid2"
        = some (initialAsset "fid2" "b.mp3")
    ∧ (initialAsset "fid2" "b.mp3").status = "processing"
    ∧ (initialAsset "fid2" "b.mp3").status ≠ "error"
    ∧ (initialAsset "fid2" "b.mp3").errorMessage = none := by
  refine ⟨rfl, by decide, rfl, by decide, rfl⟩

/-- C2 amended: when the processing attempt for a file fails (the per-file
handler throws), the batch report entry carries `status:'error'` with the
message, but the Asset record keeps the `status:'processing'` it was
created with and no `errorMessage` is written; the source container is
left untouched (the source blob is never deleted by a failing run). -/
theorem batch_failure_leaves_processing_and_source
    (st : SysState) (env : FileEnv) (f : String)
    (h : (processOneFile st env f).2.1.status = "error") :
    lookupAsset (processOneFile st env f).1.assets env.fileid
        = some (initialAsset env.fileid f)
    ∧ (initialAsset env.fileid f).status = "processing"
    ∧ (initialAsset env.fileid f).errorMessage = none
    ∧ (processOneFile st env f).2.1.error.isSome = true
    ∧ (processOneFile st env f).1.blobs.source = st.blobs.source := by
  rcases hlook : lookupBlob st.blobs.source f with _ | c
  · refine ⟨?_, rfl, rfl, ?_, ?_⟩ <;>
      simp [processOneFile, moveFileToProcessedM, hlook, lookupAsset_setAsset_self]
  · cases hf : env.fault with
    | ok =>
      exfalso
      simp [processOneFile, moveFileToProcessedM, hlook, hf] at h
    | downloadErr =>
      refine ⟨?_, rfl, rfl, ?_, ?_⟩ <;>
        simp [processOneFile, moveFileToProcessedM, hlook, hf,
          lookupAsset_setAsset_self]
    | uploadErr =>
      refine ⟨?_, rfl, rfl, ?_, ?_⟩ <;>
        simp [processOneFile, moveFileToProcessedM, hlook, hf,
          lookupAsset_setAsset_self]
    | deleteErr =>
      refine ⟨?_, rfl, rfl, ?_, ?_⟩ <;>
        simp [processOneFile, moveFileToProcessedM, hlook, hf,
          lookupAsset_setAsset_self]

theorem batch_failure_witness :
    (processOneFile emptyState missingEnv "b.mp3").2.1.status = "error"
    ∧ lookupAsset (processOneFile emptyState missingEnv "b.mp3").1.assets "fid2"
        = some (initialAsset "fid2" "b.mp3")
    ∧ (processOneFile emptyState missingEnv "b.mp3").1.blobs.source
        = emptyState.blobs.source := by
  have h := batch_failure_leaves_processing_and_source emptyState missingEnv "b.mp3" rfl
  exact ⟨rfl, h.1, h.2.2.2.2⟩

def defaultEntry : BatchEntry :=
  { fileid := none, filename := "", status := "", error := none }

theorem processOneFile_entry (st : SysState) (env : FileEnv) (f : String) :
    (processOneFile st env f).2.1.filename = f
    ∧ ((processOneFile st env f).2.1.status = "success"
       ∨ (processOneFile st env f).2.1.status = "error") := by
  rcases hm : (moveFileToProcessedM st.blobs env.fault f).1 with _ | msg <;>
    simp [processOneFile, hm]

/-- C4: the batch report has exactly one entry per requested file, in
request order, each with an explicit `success`/`error` status; a failure
on one file does not abort the processing of the remaining files. -/
theorem batch_report_covers_every_file
    (st : SysState) (envs : List FileEnv) (files : List String)
    (hlen : envs.length = files.length) :
    ((processFiles st envs files).2.1.length = files.length)
    ∧ ∀ i, i < files.length →
        ((processFiles st envs files).2.1.getD i defaultEntry).filename
            = files.getD i ""
        ∧ (((processFiles st envs files).2.1.getD i defaultEntry).status = "success"
          ∨ ((processFiles st envs files).2.1.getD i defaultEntry).status
              = "error") := by
  induction envs generalizing st files with
  | nil =>
    cases files with
    | nil => simp [processFiles]
    | cons f fs => simp at hlen
  | cons e es ih =>
    cases files with
    | nil => simp at hlen
    | cons f fs =>
      have hlen' : es.length = fs.length := by simpa using hlen
      have hmain := ih (processOneFile st e f).1 fs hlen'
      constructor
      · simpa [processFiles] using hmain.1
      · intro i hi
        cases i with
        | zero =>
          have hone := processOneFile_entry st e f
          simpa [processFiles] using hone
        | succ n =>
          have hn : n < fs.length := by simpa using hi
          have := hmain.2 n hn
          simpa [processFiles] using this

theorem batch_report_witness :
    ([okEnv, missingEnv].length = (["call_recording_001.wav", "b.mp3"] : List String).length)
    ∧ (processFiles okState [okEnv, missingEnv]
        ["call_recording_001.wav", "b.mp3"]).2.1.length = 2
    ∧ ((processFiles okState [okEnv, missingEnv]
        ["call_recording_001.wav", "b.mp3"]).2.1.getD 1 defaultEntry).filename
        = "b.mp3" := by
  have h := batch_report_covers_every_file okState [okEnv, missingEnv]
    ["call_recording_001.wav", "b.mp3"] rfl
  exact ⟨rfl, h.1, (h.2 1 (by decide)).1⟩

/-- The row inserted by `createAssetRecord` (part_013): `status='pending'`
with the caller-supplied file size. -/
structure AssetInsertRow where
  fileid : String
  filename : String
  source_path : String
  file_size : Nat
  status : String
  created_by : Nat
  deriving Repr, DecidableEq

def createAssetRecordRow (fileid filename sourcePath : String) (fileSize : Nat) :
    AssetInsertRow :=
  { fileid := fileid, filename := filename, source_path := sourcePath
    file_size := fileSize, status := "pending", created_by := 1 }

/-- C7 counterexample: the batch endpoint's ingestion-time create sets
`status:'processing'`, not `status:'pending'` as the claim states. -/
theorem batch_creates_asset_as_processing_not_pending :
    (processOneFile okState okEnv "call_recording_001.wav").2.2.head?
      = some (Ev.createAsset "fid1" "processing" 0)
    ∧ ("processing" : String) ≠ "pending" := by
  exact ⟨rfl, by decide⟩

/-- C7 amended: the batch endpoint creates the Asset row at ingestion with
`status:'processing'` (not `'pending'`) and `fileSize = 0` as a
placeholder, and never writes any other non-terminal status (every later
asset update in a run writes `'completed'`); the standalone
`createAssetRecord` helper instead inserts `status='pending'` with the
caller-supplied file size. -/
theorem batch_ingestion_status_and_size
    (st : SysState) (env : FileEnv) (f : String) :
    (processOneFile st env f).2.2.head?
        = some (Ev.createAsset env.fileid "processing" 0)
    ∧ ((processOneFile st env f).2.2.all
        (fun e => match e with
          | Ev.updateAsset _ s => s == "completed"
          | _ => true)) = true
    ∧ (∀ fid fn sp sz, (createAssetRecordRow fid fn sp sz).status = "pending"
        ∧ (createAssetRecordRow fid fn sp sz).file_size = sz) := by
  refine ⟨?_, ?_, fun fid fn sp sz => ⟨rfl, rfl⟩⟩ <;>
    rcases hm : (moveFileToProcessedM st.blobs env.fault f).1 with _ | msg <;>
      simp [processOneFile, hm]

/-! ## Paragraph / sentence persistence
(`RDS_InsertParagraph`, `RDS_InsertSentence`, check_sql_server_tables.js)

`rdt_paragraphs` and `rdt_sentences` are modelled as row lists with the
`IDENTITY` columns driven by counters.  The `FLOAT` time columns and the
`DATETIME` bookkeeping columns are omitted (they carry no weight in any
key).  Each stored procedure deletes the rows scoped to its key before
inserting, exactly as the SQL reads. -/

structure ParaRow where
  id : Nat
  fileid : String
  paragraph_idx : Nat
  text : String
  speaker : Option String
  num_words : Nat
  deriving Repr, DecidableEq

structure SentRow where
  id : Nat
  fileid : String
  paragraph_id : Nat
  sentence_idx : String
  text : String
  deriving Repr, DecidableEq

structure SqlDb where
  paras : List ParaRow
  sents : List SentRow
  nextParaId : Nat
  nextSentId : Nat
  deriving Repr, DecidableEq

def emptySqlDb : SqlDb := { paras := [], sents := [], nextParaId := 1, nextSentId := 1 }

/-- `WHERE fileid = @fileid AND paragraph_idx = @paragraph_idx` -/
def paraKey (fileid : String) (idx : Nat) (p : ParaRow) : Bool :=
  p.fileid == fileid && p.paragraph_idx == idx

/-- `WHERE paragraph_id = @paragraph_id AND sentence_idx = @sentence_idx` -/
def sentKey (pid : Nat) (sidx : String) (s : SentRow) : Bool :=
  s.paragraph_id == pid && s.sentence_idx == sidx

/-- `RDS_InsertParagraph`: delete the sentences of the paragraphs keyed
`(fileid, paragraph_idx)`, delete those paragraphs, insert the new
paragraph, return its `SCOPE_IDENTITY()`. -/
def rdsInsertParagraph (db : SqlDb) (fileid : String) (idx : Nat) (text : String)
    (speaker : Option String) (numWords : Nat) : SqlDb × Nat :=
  let sents1 := db.sents.filter (fun s =>
    !(db.paras.any (fun p => paraKey fileid idx p && p.id == s.paragraph_id)))
  let paras1 := db.paras.filter (fun p => !(paraKey fileid idx p))
  let newRow : ParaRow :=
    { id := db.nextParaId, fileid := fileid, paragraph_idx := idx
      text := text, speaker := speaker, num_words := numWords }
  ({ paras := paras1 ++ [newRow], sents := sents1
     nextParaId := db.nextParaId + 1, nextSentId := db.nextSentId }, db.nextParaId)

/-- `RDS_InsertSentence`: delete the sentence keyed
`(paragraph_id, sentence_idx)` if it exists, insert the new one. -/
def rdsInsertSentence (db : SqlDb) (fileid : String) (paragraphId : Nat)
    (sidx : String) (text : String) : SqlDb :=
  let sents1 := db.sents.filter (fun s => !(sentKey paragraphId sidx s))
  { db with
    sents := sents1 ++
      [{ id := db.nextSentId, fileid := fileid, paragraph_id := paragraphId
         sentence_idx := sidx, text := text }]
    nextSentId := db.nextSentId + 1 }

/-- A normalized sentence handed to persistence. -/
structure NormSentence where
  sidx : String
  text : String
  deriving Repr, DecidableEq

/-- A normalized paragraph handed to persistence, with its sentences. -/
structure NormParagraph where
  idx : Nat
  text : String
  speaker : Option String
  numWords : Nat
  sentences : List NormSentence
  deriving Repr, DecidableEq

/-- Modelled from the spec: the per-file persistence driver
(`upsertParagraphs`/`upsertSentences`) lives in the Python backend, which
is not under src; following the spec, for each normalized paragraph it
calls `RDS_InsertParagraph` and then inserts each of the paragraph's
sentences under the returned paragraph id via `RDS_InsertSentence`. -/
def insertParagraphSet (db : SqlDb) (fileid : String) (ps : List NormParagraph) :
    SqlDb :=
  ps.foldl (fun d p =>
    let r := rdsInsertParagraph d fileid p.idx p.text p.speaker p.numWords
    p.sentences.foldl
      (fun d2 s => rdsInsertSentence d2 fileid r.2 s.sidx s.text) r.1) db

def paraCount (db : SqlDb) (f : String) (i : Nat) : Nat :=
  db.paras.countP (paraKey f i)

def sentCount (db : SqlDb) (pid : Nat) (sidx : String) : Nat :=
  db.sents.countP (sentKey pid sidx)

theorem paraCount_rdsInsertParagraph (db : SqlDb) (f : String) (i : Nat)
    (t : String) (sp : Option String) (w : Nat) (f' : String) (i' : Nat) :
    paraCount (rdsInsertParagraph db f i t sp w).1 f' i'
      = if f' = f ∧ i' = i then 1 else paraCount db f' i' := by
  unfold paraCount rdsInsertParagraph
  simp only [List.countP_append, List.countP_filter, List.countP_singleton]
  by_cases h : f' = f ∧ i' = i
  · obtain ⟨h1, h2⟩ := h
    subst h1; subst h2
    have hz : List.countP (fun a => paraKey f' i' a && !(paraKey f' i' a))
        db.paras = 0 := by
      rw [List.countP_eq_zero]
      intro a _
      simp
    simp [hz, paraKey]
  · rw [if_neg h]
    have hm : paraKey f' i'
        { id := db.nextParaId, fileid := f, paragraph_idx := i
          text := t, speaker := sp, num_words := w } = false := by
      by_contra hc
      rw [Bool.not_eq_false] at hc
      simp only [paraKey, Bool.and_eq_true, beq_iff_eq] at hc
      exact h ⟨hc.1.symm, hc.2.symm⟩
    rw [hm]
    simp only [Bool.false_eq_true, if_false, Nat.add_zero]
    refine List.countP_congr ?_
    intro a _
    cases hpk : paraKey f i a with
    | false => simp [hpk]
    | true =>
      have hnk : paraKey f' i' a = false := by
        by_contra hc
        rw [Bool.not_eq_false] at hc
        simp only [paraKey, Bool.and_eq_true, beq_iff_eq] at hpk hc
        exact h ⟨hc.1.symm.trans hpk.1, hc.2.symm.trans hpk.2⟩
      simp [hnk]

theorem sentCount_rdsInsertSentence (db : SqlDb) (f : String) (pid : Nat)
    (sidx t : String) (pid' : Nat) (sidx' : String) :
    sentCount (rdsInsertSentence db f pid sidx t) pid' sidx'
      = if pid' = pid ∧ sidx' = sidx then 1 else sentCount db pid' sidx' := by
  unfold sentCount rdsInsertSentence
  simp only [List.countP_append, List.countP_filter, List.countP_singleton]
  by_cases h : pid' = pid ∧ sidx' = sidx
  · obtain ⟨h1, h2⟩ := h
    subst h1; subst h2
    have hz : List.countP (fun a => sentKey pid' sidx' a && !(sentKey pid' sidx' a))
        db.sents = 0 := by
      rw [List.countP_eq_zero]
      intro a _
      simp
    simp [hz, sentKey]
  · rw [if_neg h]
    have hm : sentKey pid' sidx'
        { id := db.nextSentId, fileid := f, paragraph_id := pid
          sentence_idx := sidx, text := t } = false := by
      by_contra hc
      rw [Bool.not_eq_false] at hc
      simp only [sentKey, Bool.and_eq_true, beq_iff_eq] at hc
      exact h ⟨hc.1.symm, hc.2.symm⟩
    rw [hm]
    simp only [Bool.false_eq_true, if_false, Nat.add_zero]
    refine List.countP_congr ?_
    intro a _
    cases hpk : sentKey pid sidx a with
    | false => simp [hpk]
    | true =>
      have hnk : sentKey pid' sidx' a = false := by
        by_contra hc
        rw [Bool.not_eq_false] at hc
        simp only [sentKey, Bool.and_eq_true, beq_iff_eq] at hpk hc
        exact h ⟨hc.1.symm.trans hpk.1, hc.2.symm.trans hpk.2⟩
      simp [hnk]

theorem sentCount_rdsInsertParagraph_le (db : SqlDb) (f : String) (i : Nat)
    (t : String) (sp : Option String) (w : Nat) (pid' : Nat) (sidx' : String) :
    sentCount (rdsInsertParagraph db f i t sp w).1 pid' sidx'
      ≤ sentCount db pid' sidx' := by
  unfold sentCount rdsInsertParagraph
  simp only [List.countP_filter]
  refine List.countP_mono_left ?_
  intro a _ hx
  simp only [Bool.and_eq_true] at hx
  exact hx.1

theorem paras_sentFold (ss : List NormSentence) (db : SqlDb) (f : String)
    (pid : Nat) :
    (ss.foldl (fun d s => rdsInsertSentence d f pid s.sidx s.text) db).paras
      = db.paras := by
  induction ss generalizing db with
  | nil => rfl
  | cons s rest ih => exact ih (rdsInsertSentence db f pid s.sidx s.text)

theorem paraCount_sentFold (ss : List NormSentence) (db : SqlDb) (f : String)
    (pid : Nat) (f' : String) (i' : Nat) :
    paraCount (ss.foldl (fun d s => rdsInsertSentence d f pid s.sidx s.text) db)
      f' i' = paraCount db f' i' := by
  unfold paraCount
  rw [paras_sentFold]

theorem paraCount_insertParagraphSet (ps : List NormParagraph) (db : SqlDb)
    (f f' : String) (i' : Nat) :
    paraCount (insertParagraphSet db f ps) f' i'
      = if f' = f ∧ (ps.any (fun p => p.idx == i')) = true then 1
        else paraCount db f' i' := by
  induction ps generalizing db with
  | nil => simp [insertParagraphSet]
  | cons p rest ih =>
    have hstep : insertParagraphSet db f (p :: rest)
        = insertParagraphSet
            (p.sentences.foldl
              (fun d2 s => rdsInsertSentence d2 f
                (rdsInsertParagraph db f p.idx p.text p.speaker p.numWords).2
                s.sidx s.text)
              (rdsInsertParagraph db f p.idx p.text p.speaker p.numWords).1)
            f rest := rfl
    rw [hstep, ih, paraCount_sentFold, paraCount_rdsInsertParagraph]
    by_cases hf : f' = f
    · subst hf
      by_cases hr : (rest.any (fun q => q.idx == i')) = true
      · simp [hr]
      · by_cases hp : i' = p.idx
        · subst hp
          simp [hr]
        · have hb : (p.idx == i') = false := by
            by_contra hc
            rw [Bool.not_eq_false, beq_iff_eq] at hc
            exact hp hc.symm
          simp [hr, hp, hb]
    · simp [hf]

/-- At most one sentence row per `(paragraph_id, sentence_idx)`. -/
def InvSent (db : SqlDb) : Prop := ∀ pid sidx, sentCount db pid sidx ≤ 1

theorem invSent_insertSentence (db : SqlDb) (f : String) (pid : Nat)
    (sidx t : String) (h : InvSent db) :
    InvSent (rdsInsertSentence db f pid sidx t) := by
  intro pid' sidx'
  rw [sentCount_rdsInsertSentence]
  split
  · exact le_refl 1
  · exact h pid' sidx'

theorem invSent_insertParagraph (db : SqlDb) (f : String) (i : Nat) (t : String)
    (sp : Option String) (w : Nat) (h : InvSent db) :
    InvSent (rdsInsertParagraph db f i t sp w).1 := by
  intro pid' sidx'
  exact le_trans (sentCount_rdsInsertParagraph_le db f i t sp w pid' sidx')
    (h pid' sidx')

theorem invSent_sentFold (ss : List NormSentence) (db : SqlDb) (f : String)
    (pid : Nat) (h : InvSent db) :
    InvSent (ss.foldl (fun d s => rdsInsertSentence d f pid s.sidx s.text) db) := by
  induction ss generalizing db with
  | nil => exact h
  | cons s rest ih =>
      exact ih (rdsInsertSentence db f pid s.sidx s.text)
        (invSent_insertSentence db f pid s.sidx s.text h)

theorem invSent_insertParagraphSet (ps : List NormParagraph) (db : SqlDb)
    (f : String) (h : InvSent db) : InvSent (insertParagraphSet db f ps) := by
  induction ps generalizing db with
  | nil => exact h
  | cons p rest ih =>
      exact ih _ (invSent_sentFold p.sentences _ f _
        (invSent_insertParagraph db f p.idx p.text p.speaker p.numWords h))

/-- C3: the stored procedures delete the rows scoped to their key —
`RDS_InsertParagraph` removes the `(fileid, paragraph_idx)` paragraph
together with its sentences, `RDS_InsertSentence` the
`(paragraph_id, sentence_idx)` sentence — before inserting, so running the
persistence pass twice on the same fileId with the same normalized input
leaves exactly one paragraph row per `(fileid, paragraph_idx)` of the
input and at most one sentence row per `(paragraph_id, sentence_idx)`
(every stored sentence row's key is unique). -/
theorem paragraph_sentence_upsert_idempotent (fileid : String)
    (ps : List NormParagraph) :
    (∀ p, p ∈ ps →
      paraCount (insertParagraphSet (insertParagraphSet emptySqlDb fileid ps)
        fileid ps) fileid p.idx = 1)
    ∧ (∀ pid sidx,
        sentCount (insertParagraphSet (insertParagraphSet emptySqlDb fileid ps)
          fileid ps) pid sidx ≤ 1)
    ∧ (∀ s, s ∈ (insertParagraphSet (insertParagraphSet emptySqlDb fileid ps)
          fileid ps).sents →
        sentCount (insertParagraphSet (insertParagraphSet emptySqlDb fileid ps)
          fileid ps) s.paragraph_id s.sentence_idx = 1) := by
  have hinv : InvSent (insertParagraphSet (insertParagraphSet emptySqlDb fileid ps)
      fileid ps) := by
    refine invSent_insertParagraphSet ps _ fileid
      (invSent_insertParagraphSet ps _ fileid ?_)
    intro pid sidx
    simp [sentCount, emptySqlDb]
  refine ⟨?_, hinv, ?_⟩
  · intro p hp
    rw [paraCount_insertParagraphSet]
    have hany : (ps.any (fun q => q.idx == p.idx)) = true :=
      List.any_eq_true.mpr ⟨p, hp, by simp⟩
    simp [hany]
  · intro s hs
    have h1 : 0 < sentCount (insertParagraphSet (insertParagraphSet emptySqlDb
        fileid ps) fileid ps) s.paragraph_id s.sentence_idx := by
      unfold sentCount
      refine List.countP_pos_iff.mpr ⟨s, hs, ?_⟩
      simp [sentKey]
    have h2 := hinv s.paragraph_id s.sentence_idx
    omega

/-- First paragraph of the witness input. -/
def c3Para0 : NormParagraph :=
  { idx := 0, text := "Hello there.", speaker := some "0", numWords := 2
    sentences := [{ sidx := "0_0", text := "Hello there." }] }

/-- Second paragraph of the witness input. -/
def c3Para1 : NormParagraph :=
  { idx := 1, text := "Hi. Bye.", speaker := some "1", numWords := 2
    sentences := [{ sidx := "1_0", text := "Hi." },
                  { sidx := "1_1", text := "Bye." }] }

/-- A two-paragraph, three-sentence normalized input. -/
def c3Input : List NormParagraph := [c3Para0, c3Para1]

theorem paragraph_sentence_upsert_witness :
    c3Para0 ∈ c3Input
    ∧ paraCount (insertParagraphSet (insertParagraphSet emptySqlDb "f9" c3Input)
        "f9" c3Input) "f9" 0 = 1 := by
  have hmem : c3Para0 ∈ c3Input := List.mem_cons_self _ _
  exact ⟨hmem,
    (paragraph_sentence_upsert_idempotent "f9" c3Input).1 _ hmem⟩

/-! ## Python transcription normalizer (`transcribe_audio_file`, part_001)

The JSON response shape, with `Option` marking possibly-absent keys.  The
nested `sentences` of a paragraph are present on the wire (the spec's
backend normalizer reads them) but untouched by this script. -/

structure PyUtterance where
  speaker : Option Nat
  text : Option String
  deriving Repr, DecidableEq

structure PySentence where
  text : String
  deriving Repr, DecidableEq

structure PyParagraph where
  speaker : Option Nat
  text : Option String
  sentences : List PySentence
  deriving Repr, DecidableEq

structure PyParagraphsWrapper where
  paragraphs : Option (List PyParagraph)
  deriving Repr, DecidableEq

structure PyAlternative where
  transcript : String
  deriving Repr, DecidableEq

structure PyChannel where
  alternatives : List PyAlternative
  deriving Repr, DecidableEq

structure PyResults where
  channels : Option (List PyChannel)
  utterances : Option (List PyUtterance)
  paragraphs : Option PyParagraphsWrapper
  deriving Repr, DecidableEq

structure PyResponse where
  results : Option PyResults
  deriving Repr, DecidableEq

/-- `response_data['results']['channels'][0]['alternatives'][0]['transcript']`
behind `if 'results' in ... and 'channels' in ...`; indexing an empty list
raises, which the function's catch-all `except` turns into an error
result. -/
def extractBasicTranscript (r : PyResponse) : Except String String :=
  match r.results with
  | none => .ok ""
  | some res =>
    match res.channels with
    | none => .ok ""
    | some [] => .error "Error: list index out of range"
    | some (ch :: _) =>
      match ch.alternatives with
      | [] => .error "Error: list index out of range"
      | alt :: _ => .ok alt.transcript

/-- The utterance loop: `Speaker {n}: {text}\n\n` for every utterance that
carries both keys. -/
def speakerFromUtterances (us : List PyUtterance) : String :=
  us.foldl (fun acc u =>
    match u.speaker, u.text with
    | some sp, some t => acc ++ "Speaker " ++ toString sp ++ ": " ++ t ++ "\n\n"
    | _, _ => acc) ""

/-- One step of the paragraph loop, carrying `(speaker_transcript,
current_speaker)`. -/
def paraStep (st : String × Option Nat) (p : PyParagraph) : String × Option Nat :=
  match p.speaker with
  | none => st
  | some sp =>
    let acc := st.1
    let cur := st.2
    let acc1 := if cur ≠ some sp then
        (if acc ≠ "" then acc ++ "\n\n" else acc) ++ "Speaker " ++ toString sp ++ ": "
      else acc
    let cur1 := if cur ≠ some sp then some sp else cur
    match p.text with
    | some t => (acc1 ++ t ++ " ", cur1)
    | none => (acc1, cur1)

def speakerFromParagraphs (ps : List PyParagraph) : String :=
  (ps.foldl paraStep ("", none)).1

/-- The dictionary `transcribe_audio_file` builds on the HTTP-200 path
(`success`, `has_speakers`, `basic_transcript`, `speaker_transcript`),
or the error dictionary from its catch-all handler. -/
inductive PyResult
  | ok (has_speakers : Bool) (basic_transcript : String)
       (speaker_transcript : Option String)
  | err (error : String)
  deriving Repr, DecidableEq

/-- The normalization performed on a parsed 200 response: extract the flat
transcript, then resolve speaker attribution — utterances first, else
paragraphs-with-speaker, else none. -/
def normalizeResponse (diarize : Bool) (r : PyResponse) : PyResult :=
  match extractBasicTranscript r with
  | .error e => .err e
  | .ok basic =>
    match diarize, r.results with
    | true, some res =>
      match res.utterances with
      | some us => .ok true basic (some (speakerFromUtterances us).trim)
      | none =>
        match res.paragraphs with
        | some w =>
          match w.paragraphs with
          | some ps => .ok true basic (some (speakerFromParagraphs ps).trim)
          | none => .ok false basic none
        | none => .ok false basic none
    | _, _ => .ok false basic none

/-- Modelled from the spec: the backend normalizer's `paragraphs[]` output
sequence — the list at `results.paragraphs.paragraphs`, empty when the
response carries no paragraphs (the component producing the persisted
sequences lives in the Python backend, which is not under src). -/
def normalizedParagraphs (r : PyResponse) : List PyParagraph :=
  ((r.results.bind PyResults.paragraphs).bind PyParagraphsWrapper.paragraphs).getD []

/-- Modelled from the spec: the backend normalizer's `sentences[]` output —
the paragraphs' nested sentences flattened, each under the composite index
`"{paragraphIndex}_{sentenceIndex}"`. -/
def normalizedSentences (r : PyResponse) : List (String × String) :=
  ((normalizedParagraphs r).enum.map (fun pi =>
    pi.2.sentences.enum.map (fun si =>
      (toString pi.1 ++ "_" ++ toString si.1, si.2.text)))).flatten

/-- C8: with diarization on, the normalizer prefers the utterances field
when present (speaker transcript built from utterances), otherwise falls
back to the paragraphs-with-speaker field, otherwise falls back to the
flat channel/alternative transcript with no speaker attribution. -/
theorem normalizer_prefers_utterances_then_paragraphs
    (r : PyResponse) (res : PyResults) (basic : String)
    (hres : r.results = some res)
    (hbasic : extractBasicTranscript r = .ok basic) :
    (∀ us, res.utterances = some us →
      normalizeResponse true r
        = .ok true basic (some (speakerFromUtterances us).trim))
    ∧ (∀ w ps, res.utterances = none → res.paragraphs = some w →
        w.paragraphs = some ps →
      normalizeResponse true r
        = .ok true basic (some (speakerFromParagraphs ps).trim))
    ∧ (res.utterances = none → res.paragraphs = none →
      normalizeResponse true r = .ok false basic none) := by
  refine ⟨?_, ?_, ?_⟩
  · intro us hus
    simp [normalizeResponse, hbasic, hres, hus]
  · intro w ps hus hw hps
    simp [normalizeResponse, hbasic, hres, hus, hw, hps]
  · intro hus hpar
    simp [normalizeResponse, hbasic, hres, hus, hpar]

/-- The utterances of the witness response. -/
def richUtts : List PyUtterance := [{ speaker := some 0, text := some "hello world" }]

/-- The paragraphs wrapper of the witness response. -/
def richParas : PyParagraphsWrapper :=
  { paragraphs := some [{ speaker := some 1, text := some "hello world", sentences := [] }] }

/-- A response carrying a flat transcript, utterances and paragraphs all
at once: the utterances win. -/
def richResults : PyResults :=
  { channels := some [{ alternatives := [{ transcript := "hello world" }] }]
    utterances := some richUtts
    paragraphs := some richParas }

def richResp : PyResponse := { results := some richResults }

theorem normalizer_preference_witness :
    richResp.results = some richResults
    ∧ extractBasicTranscript richResp = .ok "hello world"
    ∧ richResults.utterances = some richUtts
    ∧ normalizeResponse true richResp
        = .ok true "hello world" (some (speakerFromUtterances richUtts).trim) := by
  have h := normalizer_prefers_utterances_then_paragraphs richResp richResults
    "hello world" rfl rfl
  exact ⟨rfl, rfl, rfl, h.1 richUtts rfl⟩

/-- C9: a response with no utterances and no paragraphs (flat transcript
only) normalizes without error to a result carrying the flat
channel/alternative transcript (non-empty when the response's transcript
is), no speaker attribution, and empty paragraph and sentence output
sequences. -/
theorem normalizer_flat_response
    (r : PyResponse) (res : PyResults) (ch : PyChannel) (chs : List PyChannel)
    (alt : PyAlternative) (alts : List PyAlternative)
    (hres : r.results = some res)
    (hut : res.utterances = none)
    (hpar : res.paragraphs = none)
    (hch : res.channels = some (ch :: chs))
    (halt : ch.alternatives = alt :: alts)
    (ht0 : alt.transcript ≠ "") :
    normalizeResponse true r = .ok false alt.transcript none
    ∧ normalizedParagraphs r = []
    ∧ normalizedSentences r = []
    ∧ alt.transcript ≠ "" := by
  have hbasic : extractBasicTranscript r = .ok alt.transcript := by
    simp [extractBasicTranscript, hres, hch, halt]
  refine ⟨?_, ?_, ?_, ht0⟩
  · simp [normalizeResponse, hbasic, hres, hut, hpar]
  · simp [normalizedParagraphs, hres, hpar]
  · simp [normalizedSentences, normalizedParagraphs, hres, hpar]

def flatAlt : PyAlternative := { transcript := "just words" }

/-- A response with only a flat transcript: no utterances, no paragraphs. -/
def flatResults : PyResults :=
  { channels := some [{ alternatives := [flatAlt] }]
    utterances := none
    paragraphs := none }

def flatResp : PyResponse := { results := some flatResults }

theorem normalizer_flat_witness :
    flatResp.results = some flatResults
    ∧ flatResults.utterances = none
    ∧ flatResults.paragraphs = none
    ∧ flatAlt.transcript ≠ ""
    ∧ normalizeResponse true flatResp = .ok false "just words" none
    ∧ normalizedParagraphs flatResp = []
    ∧ normalizedSentences flatResp = [] := by
  have h := normalizer_flat_response flatResp flatResults
    { alternatives := [flatAlt] } [] flatAlt []
    rfl rfl rfl rfl rfl (by decide)
  exact ⟨rfl, rfl, rfl, by decide, h.1, h.2.1, h.2.2.1⟩

end Goodcontact
